import Mathlib

set_option maxHeartbeats 1000000

/-!
Shallow embedding of the roof-measurement service (`src/main.py`).

External HTTP collaborators (the Photon geocoder, the three Overpass
servers, and the pyproj EPSG:4326 → EPSG:3857 transformer) are modelled as
explicit parameters: each endpoint's behaviour is a value of an
`Except Unit _` type (`.error` standing for a raised transport error,
non-2xx status or malformed payload), and the coordinate transformer is a
function argument.  Python floats are modelled as rationals; Python's
banker's rounding (`round`) is modelled exactly by `roundHalfEven`.
-/

/-- Python's `round(x)`: round half to even (banker's rounding). -/
def roundHalfEven (x : ℚ) : ℤ :=
  if x - ⌊x⌋ < 1/2 then ⌊x⌋
  else if 1/2 < x - ⌊x⌋ then ⌊x⌋ + 1
  else if ⌊x⌋ % 2 = 0 then ⌊x⌋ else ⌊x⌋ + 1

/-- Python's `round(x, 1)`: round to one decimal place, half to even. -/
def pyRound1 (x : ℚ) : ℚ := (roundHalfEven (10 * x) : ℚ) / 10

/-- Sum of the cross terms `x_i * y_{i+1} - x_{i+1} * y_i` over consecutive
vertex pairs of a list.  -/
def crossSum : List (ℚ × ℚ) → ℚ
  | p :: q :: rest => (p.1 * q.2 - q.1 * p.2) + crossSum (q :: rest)
  | _ => 0

/-- Signed shoelace sum of a vertex list, with the ring implicitly closed
(last vertex joined back to the first), as shapely does. -/
def shoelace (pts : List (ℚ × ℚ)) : ℚ :=
  match pts with
  | [] => 0
  | p :: _ => crossSum (pts ++ [p])

/-- `shapely.geometry.Polygon(poly_points).area`: the absolute shoelace
area of the vertex ring.  In `src/main.py` this is the nested `area_of`
ranking key inside `overpass_building_polygon`, and also the area used by
`polygon_area_sqft`. -/
def area_of (poly_points : List (ℚ × ℚ)) : ℚ := |shoelace poly_points| / 2

/-- One step of Python's `max(candidates, key=...)`: the running best is
replaced exactly when the new item's key is strictly larger, so the first
maximal element wins ties. -/
def maxStep {α : Type} (key : α → ℚ) (b y : α) : α :=
  if key b < key y then y else b

/-- `max(candidates, key=area_of)` on a candidate list, `none` when the
list is empty (the `if not candidates: continue` guard). -/
def selectLargest (cands : List (List (ℚ × ℚ))) : Option (List (ℚ × ℚ)) :=
  match cands with
  | [] => none
  | c :: cs => some (cs.foldl (maxStep area_of) c)

/-- One point of an Overpass element's `geometry` array. -/
structure OsmPoint where
  lon : ℚ
  lat : ℚ
deriving DecidableEq

/-- One element of an Overpass response (`geometry` may be absent). -/
structure OsmElement where
  geometry : Option (List OsmPoint)
deriving DecidableEq

/-- A parsed Overpass JSON payload. -/
structure OverpassData where
  elements : List OsmElement
deriving DecidableEq

/-- The candidate extraction loop of `overpass_building_polygon`: for each
element take its `geometry` as `(lon, lat)` pairs and keep it when it has
at least 3 points.  (`if not geom: continue` also skips an empty geometry
list, which the length test subsumes.) -/
def candidatesOf (d : OverpassData) : List (List (ℚ × ℚ)) :=
  d.elements.filterMap fun el =>
    match el.geometry with
    | none => none
    | some geom =>
      let points := geom.map fun p => (p.lon, p.lat)
      if 3 ≤ points.length then some points else none

/-- An endpoint attempt yields no usable candidate: it raised, or its
payload produced an empty candidate list. -/
def yieldsNoCandidate : Except Unit OverpassData → Bool
  | .error _ => true
  | .ok d => (candidatesOf d).isEmpty

/-- The hard-coded Overpass fallback server list of `src/main.py`. -/
def servers : List String :=
  ["https://overpass-api.de/api/interpreter",
   "https://overpass.kumi.systems/api/interpreter",
   "https://overpass.nchc.org.tw/api/interpreter"]

/-- The `for url in servers` loop of `overpass_building_polygon`, applied
to the per-server outcomes: a raised exception or an empty candidate list
moves on to the next server; the first server with candidates returns the
largest one, and exhaustion returns `None`. -/
def overpassTry : List (Except Unit OverpassData) → Option (List (ℚ × ℚ))
  | [] => none
  | .error _ :: rest => overpassTry rest
  | .ok d :: rest =>
    match selectLargest (candidatesOf d) with
    | none => overpassTry rest
    | some p => some p

/-- `overpass_building_polygon(lat, lng)`, with the three servers' outcomes
supplied as a map from server URL to outcome. -/
def overpass_building_polygon (resp : String → Except Unit OverpassData) :
    Option (List (ℚ × ℚ)) :=
  overpassTry (servers.map resp)

/-- The URL built by `photon_autocomplete`. -/
def photonURL (query : String) : String :=
  "https://photon.komoot.io/api/?q=" ++ query ++ "&limit=1"

/-- One feature of a Photon response: `properties.name` (possibly absent)
and `geometry.coordinates`, delivered in `[longitude, latitude]` order. -/
structure PhotonFeature where
  name : Option String
  coordinates : ℚ × ℚ
deriving DecidableEq

/-- A parsed Photon JSON payload. -/
structure PhotonData where
  features : List PhotonFeature
deriving DecidableEq

/-- The dict returned by `photon_autocomplete` on a hit. -/
structure GeoResult where
  address : String
  lat : ℚ
  lng : ℚ
deriving DecidableEq

/-- `photon_autocomplete(query)` given the endpoint's outcome.  A transport
error or non-2xx status (`r.raise_for_status()`) propagates as a raised
exception (`.error`); an empty or missing `features` array returns `None`;
otherwise the first feature is mapped, with `props.get("name") or query`
falling back to the query on a missing or empty name, and `lat`/`lng`
taken from `coordinates[1]`/`coordinates[0]`. -/
def photon_autocomplete (query : String) (resp : Except Unit PhotonData) :
    Except Unit (Option GeoResult) :=
  match resp with
  | .error e => .error e
  | .ok data =>
    match data.features with
    | [] => .ok none
    | f :: _ =>
      .ok (some
        { address :=
            match f.name with
            | none => query
            | some n => if n = "" then query else n,
          lat := f.coordinates.2,
          lng := f.coordinates.1 })

/-- `polygon_area_sqft(poly_points)`: reproject every vertex with the
EPSG:4326 → EPSG:3857 transformer `proj`, take the shapely polygon area in
square meters, and convert with the fixed constant 10.7639. -/
def polygon_area_sqft (proj : ℚ × ℚ → ℚ × ℚ) (poly_points : List (ℚ × ℚ)) : ℚ :=
  area_of (poly_points.map proj) * 10.7639

/-- The pitch multiplier table `{"low": 1.05, "medium": 1.15, "steep": 1.25}`. -/
def multipliers : List (String × ℚ) :=
  [("low", 1.05), ("medium", 1.15), ("steep", 1.25)]

/-- The JSON object returned by `measure_roof` on success. -/
structure MeasurementResult where
  flat_sqft : ℚ
  roof_sqft_est : ℚ
  squares : ℚ
  pitch_class : String
deriving DecidableEq

/-- A structured `measure_roof` response: an error object or a result. -/
inductive MeasureResponse where
  | err (code : String)
  | result (m : MeasurementResult)
deriving DecidableEq

/-- The success tail of `measure_roof`: compute the flat area, apply the
fixed "medium" pitch multiplier, derive squares, and round. -/
def mkMeasurement (proj : ℚ × ℚ → ℚ × ℚ) (poly_points : List (ℚ × ℚ)) :
    MeasurementResult :=
  let flat_sqft := polygon_area_sqft proj poly_points
  let pitch_class := "medium"
  let roof_sqft := flat_sqft * ((multipliers.lookup pitch_class).getD 0)
  let squares := roof_sqft / 100
  { flat_sqft := (roundHalfEven flat_sqft : ℚ),
    roof_sqft_est := (roundHalfEven roof_sqft : ℚ),
    squares := pyRound1 squares,
    pitch_class := pitch_class }

/-- The request body of `/measure-roof`. -/
structure MeasureRequest where
  address : String := ""
  lat : Option ℚ := none
  lng : Option ℚ := none
deriving DecidableEq

/-- The footprint-lookup-and-measure tail of `measure_roof`, run once a
coordinate is fixed.  `ov lat lng` gives each Overpass server's outcome for
the query centred at that coordinate. -/
def measureAt (ov : ℚ → ℚ → String → Except Unit OverpassData)
    (proj : ℚ × ℚ → ℚ × ℚ) (lat lng : ℚ) : MeasureResponse :=
  match overpass_building_polygon (ov lat lng) with
  | none => .err "no_footprint"
  | some poly_points => .result (mkMeasurement proj poly_points)

/-- `measure_roof(req)`.  `photon` gives the geocoding endpoint's outcome
for each query string.  A raised exception inside the handler body (the
uncaught geocoder transport error) is the `.error` case of the result. -/
def measure_roof (req : MeasureRequest)
    (photon : String → Except Unit PhotonData)
    (ov : ℚ → ℚ → String → Except Unit OverpassData)
    (proj : ℚ × ℚ → ℚ × ℚ) : Except Unit MeasureResponse :=
  match req.lat, req.lng with
  | some lat, some lng => .ok (measureAt ov proj lat lng)
  | _, _ =>
    if req.address = "" then .ok (.err "no_location")
    else
      match photon_autocomplete req.address (photon req.address) with
      | .error e => .error e
      | .ok none => .ok (.err "geocode_failed")
      | .ok (some geo) => .ok (measureAt ov proj geo.lat geo.lng)

/-- A response is well formed when it is a result or one of the three
documented error codes. -/
def wellFormedResponse : MeasureResponse → Bool
  | .result _ => true
  | .err c => c = "no_location" || c = "geocode_failed" || c = "no_footprint"

/-- The EPSG:4326 → EPSG:3857 transformer linearised at the equator:
one degree spans 111320 meters (the spherical-Mercator scale
6378137 · π / 180 ≈ 111319.49, rounded to keep the arithmetic exact).
Near the equator the Mercator latitude stretch is negligible. -/
def projEquator : ℚ × ℚ → ℚ × ℚ := fun p => (111320 * p.1, 111320 * p.2)

/-- The side, in degrees near the equator, of a square footprint whose
`projEquator` image is exactly 20 meters on a side (area 400 m²). -/
def squareSide : ℚ := 20 / 111320

/-- The vertex ring of that 20 m × 20 m footprint. -/
def squareOutline : List OsmPoint :=
  [⟨0, 0⟩, ⟨squareSide, 0⟩, ⟨squareSide, squareSide⟩, ⟨0, squareSide⟩]

/-- Overpass outcomes delivering exactly the square footprint from every
server. -/
def ovSquare : ℚ → ℚ → String → Except Unit OverpassData :=
  fun _ _ _ => .ok ⟨[⟨some squareOutline⟩]⟩

/-- A request carrying a near-equator coordinate directly. -/
def reqSquare : MeasureRequest := ⟨"", some (1/10000), some (1/10000)⟩

/-! ### Helper lemmas -/

/-- `roundHalfEven` returns a nearest integer. -/
theorem roundHalfEven_near (x : ℚ) : |((roundHalfEven x : ℤ) : ℚ) - x| ≤ 1/2 := by
  have hfl : (⌊x⌋ : ℚ) ≤ x := Int.floor_le x
  have hfl2 : x < ⌊x⌋ + 1 := Int.lt_floor_add_one x
  rw [abs_le, roundHalfEven]
  split
  · rename_i h1
    constructor <;> linarith
  · rename_i h1
    split
    · rename_i h2
      constructor <;> push_cast <;> linarith
    · rename_i h2
      split
      · constructor <;> linarith
      · constructor <;> push_cast <;> linarith

/-- `pyRound1` returns a nearest multiple of one tenth. -/
theorem pyRound1_near (x : ℚ) : |pyRound1 x - x| ≤ 1/20 := by
  have h := roundHalfEven_near (10 * x)
  rw [abs_le] at h ⊢
  rw [pyRound1]
  constructor <;> [linarith [h.1]; linarith [h.2]]

theorem maxStep_foldl_mem {α : Type} (key : α → ℚ) :
    ∀ (l : List α) (a : α), l.foldl (maxStep key) a ∈ a :: l := by
  intro l
  induction l with
  | nil => intro a; simp
  | cons y t ih =>
    intro a
    have h := ih (maxStep key a y)
    rw [List.foldl_cons]
    rcases List.mem_cons.mp h with h1 | h1
    · rw [h1, maxStep]
      split
      · simp
      · simp
    · simp [List.mem_cons.mpr (Or.inr (List.mem_cons.mpr (Or.inr h1)))]

theorem maxStep_le_left {α : Type} (key : α → ℚ) (a y : α) :
    key a ≤ key (maxStep key a y) := by
  rw [maxStep]
  split
  · rename_i h; exact le_of_lt h
  · exact le_refl _

theorem maxStep_le_right {α : Type} (key : α → ℚ) (a y : α) :
    key y ≤ key (maxStep key a y) := by
  rw [maxStep]
  split
  · exact le_refl _
  · rename_i h; exact le_of_not_lt h

theorem maxStep_foldl_le {α : Type} (key : α → ℚ) :
    ∀ (l : List α) (a : α), ∀ z ∈ a :: l, key z ≤ key (l.foldl (maxStep key) a) := by
  intro l
  induction l with
  | nil =>
    intro a z hz
    simp at hz
    subst hz
    rw [List.foldl_nil]
  | cons y t ih =>
    intro a z hz
    rw [List.foldl_cons]
    rcases List.mem_cons.mp hz with h1 | h1
    · rw [h1]
      exact le_trans (maxStep_le_left key a y)
        (ih (maxStep key a y) _ (List.mem_cons_self _ _))
    · rcases List.mem_cons.mp h1 with h2 | h2
      · rw [h2]
        exact le_trans (maxStep_le_right key a y)
          (ih (maxStep key a y) _ (List.mem_cons_self _ _))
      · exact ih (maxStep key a y) z (List.mem_cons.mpr (Or.inr h2))

/-- Python's `max(..., key=...)` returns the strict maximum when one exists. -/
theorem maxStep_foldl_strict {α : Type} (key : α → ℚ) (l : List α) (a c : α)
    (hc : c ∈ a :: l) (hmax : ∀ y ∈ a :: l, y ≠ c → key y < key c) :
    l.foldl (maxStep key) a = c := by
  by_contra hne
  have hmem := maxStep_foldl_mem key l a
  have hle := maxStep_foldl_le key l a c hc
  have hlt := hmax _ hmem hne
  exact absurd hle (not_le.mpr hlt)

/-- Endpoints that raise or yield no candidates are skipped by the loop. -/
theorem overpassTry_skip :
    ∀ (pre rest : List (Except Unit OverpassData)),
      (∀ r ∈ pre, yieldsNoCandidate r = true) →
      overpassTry (pre ++ rest) = overpassTry rest := by
  intro pre
  induction pre with
  | nil => intro rest _; rfl
  | cons r t ih =>
    intro rest h
    have hr : yieldsNoCandidate r = true := h r (List.mem_cons_self _ _)
    have ht : ∀ x ∈ t, yieldsNoCandidate x = true :=
      fun x hx => h x (List.mem_cons.mpr (Or.inr hx))
    cases r with
    | error e =>
      rw [List.cons_append]
      rw [overpassTry]
      exact ih rest ht
    | ok d =>
      rw [yieldsNoCandidate, List.isEmpty_iff] at hr
      rw [List.cons_append, overpassTry, hr]
      rw [selectLargest]
      exact ih rest ht

/-- The post-coordinate tail always produces a well-formed response. -/
theorem measureAt_wellFormed (ov : ℚ → ℚ → String → Except Unit OverpassData)
    (proj : ℚ × ℚ → ℚ × ℚ) (lat lng : ℚ) :
    wellFormedResponse (measureAt ov proj lat lng) = true := by
  rw [measureAt]
  cases overpass_building_polygon (ov lat lng) with
  | none => rfl
  | some p => rfl

/-- With both coordinate components supplied, `measure_roof` goes straight
to the footprint lookup. -/
theorem measure_roof_coord (addr : String) (la ln : ℚ)
    (photon : String → Except Unit PhotonData)
    (ov : ℚ → ℚ → String → Except Unit OverpassData) (proj : ℚ × ℚ → ℚ × ℚ) :
    measure_roof ⟨addr, some la, some ln⟩ photon ov proj =
      .ok (measureAt ov proj la ln) := rfl

/-- With a missing coordinate component, `measure_roof` runs the
address/geocoding branch. -/
theorem measure_roof_nocoord (addr : String) (olat olng : Option ℚ)
    (h : olat = none ∨ olng = none)
    (photon : String → Except Unit PhotonData)
    (ov : ℚ → ℚ → String → Except Unit OverpassData) (proj : ℚ × ℚ → ℚ × ℚ) :
    measure_roof ⟨addr, olat, olng⟩ photon ov proj =
      (if addr = "" then .ok (.err "no_location")
       else
        match photon_autocomplete addr (photon addr) with
        | .error e => .error e
        | .ok none => .ok (.err "geocode_failed")
        | .ok (some geo) => .ok (measureAt ov proj geo.lat geo.lng)) := by
  rcases h with h | h
  · subst h
    cases olng <;> rfl
  · subst h
    cases olat <;> rfl

/-- The address/geocoding branch gives a well-formed response whenever the
geocoding endpoint does not raise. -/
theorem nocoord_wellFormed (addr : String) (olat olng : Option ℚ)
    (h : olat = none ∨ olng = none)
    (photon : String → Except Unit PhotonData)
    (ov : ℚ → ℚ → String → Except Unit OverpassData) (proj : ℚ × ℚ → ℚ × ℚ)
    (hp : ∃ d, photon addr = .ok d) :
    ∃ resp, measure_roof ⟨addr, olat, olng⟩ photon ov proj = .ok resp ∧
      wellFormedResponse resp = true := by
  rw [measure_roof_nocoord addr olat olng h]
  by_cases ha : addr = ""
  · rw [if_pos ha]
    exact ⟨.err "no_location", rfl, rfl⟩
  · rw [if_neg ha]
    obtain ⟨d, hd⟩ := hp
    obtain ⟨feats⟩ := d
    rw [hd]
    cases feats with
    | nil => exact ⟨.err "geocode_failed", rfl, rfl⟩
    | cons f rest =>
      exact ⟨_, rfl, measureAt_wellFormed ov proj f.coordinates.2 f.coordinates.1⟩

/-! ### Claims -/

/-- C1: for every polygon handled by the area estimator, the flat area is
the shoelace area of the `proj`-reprojected vertices (square meters) times
10.7639; the roof area is the flat area times the looked-up "medium"
multiplier 1.15; squares is the roof area divided by 100; the returned
flat and roof values are those quantities rounded to a nearest whole
square foot (half to even) and squares to a nearest tenth; and the pitch
class is always "medium". -/
theorem spec_c1_area_estimator (proj : ℚ × ℚ → ℚ × ℚ) (poly : List (ℚ × ℚ)) :
    polygon_area_sqft proj poly = |shoelace (poly.map proj)| / 2 * 10.7639 ∧
    mkMeasurement proj poly =
      { flat_sqft := (roundHalfEven (polygon_area_sqft proj poly) : ℚ),
        roof_sqft_est := (roundHalfEven (polygon_area_sqft proj poly * 1.15) : ℚ),
        squares := pyRound1 (polygon_area_sqft proj poly * 1.15 / 100),
        pitch_class := "medium" } ∧
    |(mkMeasurement proj poly).flat_sqft - polygon_area_sqft proj poly| ≤ 1/2 ∧
    |(mkMeasurement proj poly).roof_sqft_est - polygon_area_sqft proj poly * 1.15| ≤ 1/2 ∧
    |(mkMeasurement proj poly).squares - polygon_area_sqft proj poly * 1.15 / 100| ≤ 1/20 := by
  have hm : mkMeasurement proj poly =
      { flat_sqft := (roundHalfEven (polygon_area_sqft proj poly) : ℚ),
        roof_sqft_est := (roundHalfEven (polygon_area_sqft proj poly * 1.15) : ℚ),
        squares := pyRound1 (polygon_area_sqft proj poly * 1.15 / 100),
        pitch_class := "medium" } := rfl
  refine ⟨rfl, hm, ?_, ?_, ?_⟩
  · rw [hm]
    exact roundHalfEven_near _
  · rw [hm]
    exact roundHalfEven_near _
  · rw [hm]
    exact pyRound1_near _

/-- C2 counterexample: with no coordinate, a non-empty address, and a
geocoding endpoint that raises a transport error (or returns non-2xx), the
handler does not return a structured response at all — the exception
escapes `measure_roof` unhandled, refuting the claim that every input
yields a well-formed response. -/
theorem spec_c2_unhandled_fault_cex :
    ¬ ∃ resp, measure_roof { address := "a", lat := none, lng := none }
        (fun _ => .error ()) (fun _ _ _ => .error ()) (fun p => p) = .ok resp := by
  intro h
  obtain ⟨resp, hr⟩ := h
  have he : measure_roof { address := "a", lat := none, lng := none }
      (fun _ => .error ()) (fun _ _ _ => .error ()) (fun p => p) = .error () := rfl
  rw [he] at hr
  exact Except.noConfusion hr

/-- C2 (amended): provided the geocoding endpoint does not raise, every
input to `measure_roof` yields a well-formed structured response — a
result or one of the codes no_location / geocode_failed / no_footprint;
footprint-endpoint transport errors never escape.  (A geocoding transport
error, by contrast, escapes as an unhandled fault.) -/
theorem spec_c2_wellformed_response (req : MeasureRequest)
    (photon : String → Except Unit PhotonData)
    (ov : ℚ → ℚ → String → Except Unit OverpassData) (proj : ℚ × ℚ → ℚ × ℚ)
    (hp : ∀ q, ∃ d, photon q = .ok d) :
    ∃ resp, measure_roof req photon ov proj = .ok resp ∧
      wellFormedResponse resp = true := by
  obtain ⟨addr, olat, olng⟩ := req
  cases olat with
  | some la =>
    cases olng with
    | some ln => exact ⟨_, rfl, measureAt_wellFormed ov proj la ln⟩
    | none => exact nocoord_wellFormed addr _ _ (Or.inr rfl) photon ov proj (hp addr)
  | none => exact nocoord_wellFormed addr _ _ (Or.inl rfl) photon ov proj (hp addr)

/-- C2 witness: a concrete run with a non-raising geocoder yields a
well-formed structured response. -/
theorem spec_c2_wellformed_witness :
    ∃ resp, measure_roof { address := "a", lat := none, lng := none }
        (fun _ => .ok ⟨[]⟩) (fun _ _ _ => .error ()) (fun p => p) = .ok resp ∧
      wellFormedResponse resp = true :=
  spec_c2_wellformed_response _ _ _ _ (fun _ => ⟨⟨[]⟩, rfl⟩)

/-- C9: `measure_roof` is deterministic — identical request and identical
external geocoding / footprint responses (and the same coordinate
transformer) give an identical response. -/
theorem spec_c9_deterministic (req1 req2 : MeasureRequest)
    (photon1 photon2 : String → Except Unit PhotonData)
    (ov1 ov2 : ℚ → ℚ → String → Except Unit OverpassData)
    (proj1 proj2 : ℚ × ℚ → ℚ × ℚ)
    (hreq : req1 = req2) (hphoton : photon1 = photon2)
    (hov : ov1 = ov2) (hproj : proj1 = proj2) :
    measure_roof req1 photon1 ov1 proj1 = measure_roof req2 photon2 ov2 proj2 := by
  subst hreq hphoton hov hproj
  rfl

/-- C9 witness: determinism at a concrete input. -/
theorem spec_c9_witness :
    measure_roof { address := "", lat := some 1, lng := some 2 }
        (fun _ => .ok ⟨[]⟩) (fun _ _ _ => .error ()) (fun p => p) =
      measure_roof { address := "", lat := some 1, lng := some 2 }
        (fun _ => .ok ⟨[]⟩) (fun _ _ _ => .error ()) (fun p => p) :=
  spec_c9_deterministic _ _ _ _ _ _ _ _ rfl rfl rfl rfl

/-- C10: with exactly one of `lat` / `lng` supplied, the coordinate is
treated as absent: an empty address gives no_location, and otherwise the
run is identical to one with no coordinate at all (the supplied component
is discarded in favour of the geocoded pair). -/
theorem spec_c10_partial_coordinate (req : MeasureRequest)
    (photon : String → Except Unit PhotonData)
    (ov : ℚ → ℚ → String → Except Unit OverpassData) (proj : ℚ × ℚ → ℚ × ℚ)
    (h : (req.lat ≠ none ∧ req.lng = none) ∨ (req.lat = none ∧ req.lng ≠ none)) :
    (req.address = "" → measure_roof req photon ov proj = .ok (.err "no_location")) ∧
    measure_roof req photon ov proj =
      measure_roof { address := req.address, lat := none, lng := none }
        photon ov proj := by
  obtain ⟨addr, olat, olng⟩ := req
  have hor : olat = none ∨ olng = none := by
    rcases h with ⟨_, h2⟩ | ⟨h1, _⟩
    · exact Or.inr h2
    · exact Or.inl h1
  constructor
  · intro ha
    rw [measure_roof_nocoord addr olat olng hor]
    exact if_pos ha
  · rw [measure_roof_nocoord addr olat olng hor,
        measure_roof_nocoord addr none none (Or.inl rfl)]

/-- C10 witness: a concrete request with only `lat` supplied and an empty
address returns no_location and behaves exactly like the coordinate-free
request. -/
theorem spec_c10_witness :
    measure_roof { address := "", lat := some 5, lng := none }
        (fun _ => .ok ⟨[]⟩) (fun _ _ _ => .error ()) (fun p => p) =
      .ok (.err "no_location") ∧
    measure_roof { address := "", lat := some 5, lng := none }
        (fun _ => .ok ⟨[]⟩) (fun _ _ _ => .error ()) (fun p => p) =
      measure_roof { address := "", lat := none, lng := none }
        (fun _ => .ok ⟨[]⟩) (fun _ _ _ => .error ()) (fun p => p) :=
  have h := spec_c10_partial_coordinate ⟨"", some 5, none⟩
    (fun _ => .ok ⟨[]⟩) (fun _ _ _ => .error ()) (fun p => p)
    (Or.inl ⟨Option.some_ne_none 5, rfl⟩)
  ⟨h.1 rfl, h.2⟩

/-- C3: among the candidates (each with at least 3 vertices) of the first
endpoint that yields any, the locator loop returns the candidate of
strictly maximum raw-coordinate shoelace area whenever a strict maximum
exists. -/
theorem spec_c3_strict_max (pre post : List (Except Unit OverpassData))
    (d : OverpassData) (c : List (ℚ × ℚ))
    (hpre : ∀ r ∈ pre, yieldsNoCandidate r = true)
    (hc : c ∈ candidatesOf d)
    (hmax : ∀ cand ∈ candidatesOf d, cand ≠ c → area_of cand < area_of c) :
    overpassTry (pre ++ Except.ok d :: post) = some c := by
  rw [overpassTry_skip pre (Except.ok d :: post) hpre]
  cases hcand : candidatesOf d with
  | nil =>
    rw [hcand] at hc
    exact absurd hc (List.not_mem_nil c)
  | cons c0 cs =>
    have hc2 : c ∈ c0 :: cs := hcand ▸ hc
    have hmax2 : ∀ y ∈ c0 :: cs, y ≠ c → area_of y < area_of c := by
      rw [hcand] at hmax
      exact hmax
    have hfold := maxStep_foldl_strict area_of cs c0 c hc2 hmax2
    simp only [overpassTry, hcand, selectLargest, hfold]

/-- C3 witness: with a first endpoint raising and a second endpoint
offering a triangle and a strictly larger square, the loop selects the
square. -/
theorem spec_c3_witness :
    overpassTry
        ([Except.error ()] ++
          Except.ok
              (⟨[⟨some [⟨0, 0⟩, ⟨1, 0⟩, ⟨0, 1⟩]⟩,
                 ⟨some [⟨0, 0⟩, ⟨2, 0⟩, ⟨2, 2⟩, ⟨0, 2⟩]⟩]⟩ : OverpassData) :: []) =
      some [((0:ℚ), (0:ℚ)), (2, 0), (2, 2), (0, 2)] := by
  refine spec_c3_strict_max _ _ _ _ ?_ ?_ ?_
  · intro r hr
    rw [List.mem_singleton] at hr
    subst hr
    rfl
  · rw [show candidatesOf
        (⟨[⟨some [⟨0, 0⟩, ⟨1, 0⟩, ⟨0, 1⟩]⟩,
           ⟨some [⟨0, 0⟩, ⟨2, 0⟩, ⟨2, 2⟩, ⟨0, 2⟩]⟩]⟩ : OverpassData) =
        [[((0:ℚ), (0:ℚ)), (1, 0), (0, 1)], [((0:ℚ), (0:ℚ)), (2, 0), (2, 2), (0, 2)]]
      from rfl]
    exact List.mem_cons.mpr (Or.inr (List.mem_singleton.mpr rfl))
  · rw [show candidatesOf
        (⟨[⟨some [⟨0, 0⟩, ⟨1, 0⟩, ⟨0, 1⟩]⟩,
           ⟨some [⟨0, 0⟩, ⟨2, 0⟩, ⟨2, 2⟩, ⟨0, 2⟩]⟩]⟩ : OverpassData) =
        [[((0:ℚ), (0:ℚ)), (1, 0), (0, 1)], [((0:ℚ), (0:ℚ)), (2, 0), (2, 2), (0, 2)]]
      from rfl]
    intro cand hcand hne
    rcases List.mem_cons.mp hcand with h | h
    · subst h
      norm_num [area_of, shoelace, crossSum]
    · rw [List.mem_singleton] at h
      exact absurd h hne

/-- C4: the entry-path branching of `measure_roof`: with both coordinate
components the geocoder is skipped (the result does not depend on it) and
footprint lookup runs at the given coordinate; with the coordinate absent
and an empty address the result is no_location; with the coordinate absent
and a non-empty address the geocoder runs — zero features give
geocode_failed, and a hit proceeds at the geocoded coordinate. -/
theorem spec_c4_entry_branching (req : MeasureRequest)
    (photon : String → Except Unit PhotonData)
    (ov : ℚ → ℚ → String → Except Unit OverpassData) (proj : ℚ × ℚ → ℚ × ℚ) :
    (∀ la ln, req.lat = some la → req.lng = some ln →
      measure_roof req photon ov proj = .ok (measureAt ov proj la ln) ∧
      ∀ photon2, measure_roof req photon2 ov proj = measure_roof req photon ov proj) ∧
    ((req.lat = none ∨ req.lng = none) → req.address = "" →
      measure_roof req photon ov proj = .ok (.err "no_location")) ∧
    ((req.lat = none ∨ req.lng = none) → req.address ≠ "" →
      (∀ dd, photon req.address = .ok dd → dd.features = [] →
        measure_roof req photon ov proj = .ok (.err "geocode_failed")) ∧
      (∀ geo, photon_autocomplete req.address (photon req.address) = .ok (some geo) →
        measure_roof req photon ov proj = .ok (measureAt ov proj geo.lat geo.lng))) := by
  obtain ⟨addr, olat, olng⟩ := req
  refine ⟨?_, ?_, ?_⟩
  · intro la ln h1 h2
    simp only at h1 h2
    subst h1 h2
    exact ⟨measure_roof_coord addr la ln photon ov proj, fun photon2 => rfl⟩
  · intro hor ha
    rw [measure_roof_nocoord addr olat olng hor]
    exact if_pos ha
  · intro hor ha
    constructor
    · intro dd hdd hfeat
      rw [measure_roof_nocoord addr olat olng hor, if_neg ha, hdd]
      obtain ⟨feats⟩ := dd
      simp only at hfeat
      subst hfeat
      rfl
    · intro geo hgeo
      rw [measure_roof_nocoord addr olat olng hor, if_neg ha, hgeo]

/-- C4 witness: the three entry branches at concrete inputs. -/
theorem spec_c4_witness :
    measure_roof { address := "x", lat := some 1, lng := some 2 }
        (fun _ => .ok ⟨[]⟩) (fun _ _ _ => .error ()) (fun p => p) =
      .ok (measureAt (fun _ _ _ => .error ()) (fun p => p) 1 2) ∧
    measure_roof { address := "", lat := none, lng := none }
        (fun _ => .ok ⟨[]⟩) (fun _ _ _ => .error ()) (fun p => p) =
      .ok (.err "no_location") ∧
    measure_roof { address := "a", lat := none, lng := none }
        (fun _ => .ok ⟨[]⟩) (fun _ _ _ => .error ()) (fun p => p) =
      .ok (.err "geocode_failed") :=
  ⟨((spec_c4_entry_branching ⟨"x", some 1, some 2⟩ (fun _ => .ok ⟨[]⟩)
      (fun _ _ _ => .error ()) (fun p => p)).1 1 2 rfl rfl).1,
   (spec_c4_entry_branching ⟨"", none, none⟩ (fun _ => .ok ⟨[]⟩)
      (fun _ _ _ => .error ()) (fun p => p)).2.1 (Or.inl rfl) rfl,
   ((spec_c4_entry_branching ⟨"a", none, none⟩ (fun _ => .ok ⟨[]⟩)
      (fun _ _ _ => .error ()) (fun p => p)).2.2 (Or.inl rfl)
      (by decide)).1 ⟨[]⟩ rfl rfl⟩

/-- C5: when the first overpass server raises and the second returns at
least one valid candidate, the locator returns the second server's
selected (largest) polygon — the first server's error does not
propagate. -/
theorem spec_c5_fallback (resp : String → Except Unit OverpassData) (d : OverpassData)
    (h1 : resp "https://overpass-api.de/api/interpreter" = .error ())
    (h2 : resp "https://overpass.kumi.systems/api/interpreter" = .ok d)
    (hne : candidatesOf d ≠ []) :
    ∃ p, overpass_building_polygon resp = some p ∧
      selectLargest (candidatesOf d) = some p := by
  cases hcand : candidatesOf d with
  | nil => exact absurd hcand hne
  | cons c0 cs =>
    refine ⟨cs.foldl (maxStep area_of) c0, ?_, rfl⟩
    rw [overpass_building_polygon, servers]
    simp only [List.map_cons, List.map_nil]
    rw [h1, h2]
    simp only [overpassTry, hcand, selectLargest]

/-- C5 witness: first server raising, second server offering a triangle. -/
theorem spec_c5_witness :
    ∃ p, overpass_building_polygon
        (fun u => if u = "https://overpass.kumi.systems/api/interpreter"
          then Except.ok (⟨[⟨some [⟨0, 0⟩, ⟨1, 0⟩, ⟨0, 1⟩]⟩]⟩ : OverpassData)
          else Except.error ()) = some p ∧
      selectLargest (candidatesOf
        (⟨[⟨some [⟨0, 0⟩, ⟨1, 0⟩, ⟨0, 1⟩]⟩]⟩ : OverpassData)) = some p :=
  spec_c5_fallback _ _ rfl rfl
    (by
      rw [show candidatesOf (⟨[⟨some [⟨0, 0⟩, ⟨1, 0⟩, ⟨0, 1⟩]⟩]⟩ : OverpassData) =
        [[((0:ℚ), (0:ℚ)), (1, 0), (0, 1)]] from rfl]
      exact List.cons_ne_nil _ _)

/-- C6: if every server raises or yields no usable candidate, the locator
returns `none` and `measure_roof` (entered at a supplied coordinate whose
overpass outcomes those are) terminates with the structured no_footprint
code — the last endpoint error is not surfaced. -/
theorem spec_c6_exhausted (resp : String → Except Unit OverpassData)
    (h : ∀ u ∈ servers, yieldsNoCandidate (resp u) = true)
    (req : MeasureRequest) (photon : String → Except Unit PhotonData)
    (ov : ℚ → ℚ → String → Except Unit OverpassData) (proj : ℚ × ℚ → ℚ × ℚ)
    (la ln : ℚ) (hlat : req.lat = some la) (hlng : req.lng = some ln)
    (hov : ov la ln = resp) :
    overpass_building_polygon resp = none ∧
    measure_roof req photon ov proj = .ok (.err "no_footprint") := by
  have hall : ∀ r ∈ servers.map resp, yieldsNoCandidate r = true := by
    intro r hr
    obtain ⟨u, hu, rfl⟩ := List.mem_map.mp hr
    exact h u hu
  have hnone : overpass_building_polygon resp = none := by
    rw [overpass_building_polygon, ← List.append_nil (servers.map resp),
      overpassTry_skip (servers.map resp) [] hall]
    rfl
  refine ⟨hnone, ?_⟩
  obtain ⟨addr, olat, olng⟩ := req
  simp only at hlat hlng
  subst hlat hlng
  rw [measure_roof_coord, measureAt, hov, hnone]

/-- C6 witness: all three servers raising gives `none` and the
no_footprint code. -/
theorem spec_c6_witness :
    overpass_building_polygon (fun _ => Except.error ()) = none ∧
    measure_roof { address := "", lat := some 1, lng := some 2 }
        (fun _ => .ok ⟨[]⟩) (fun _ _ => fun _ => Except.error ()) (fun p => p) =
      .ok (.err "no_footprint") :=
  spec_c6_exhausted (fun _ => Except.error ()) (fun _ _ => rfl)
    ⟨"", some 1, some 2⟩ (fun _ => .ok ⟨[]⟩) (fun _ _ => fun _ => Except.error ())
    (fun p => p) 1 2 rfl rfl rfl

/-- C8: the geocoder requests exactly one result (`limit=1` in the URL)
and, on a successful response with at least one feature, returns latitude
from the second and longitude from the first entry of the first feature's
geometry coordinates (swapping the delivered [lon, lat] order), with a
display address derived from the feature's name (falling back to the query
when the name is absent or empty). -/
theorem spec_c8_geocoder (q : String) (f : PhotonFeature) (rest : List PhotonFeature)
    (data : PhotonData) (hf : data.features = f :: rest) :
    photonURL q = "https://photon.komoot.io/api/?q=" ++ q ++ "&limit=1" ∧
    ∃ geo, photon_autocomplete q (.ok data) = .ok (some geo) ∧
      geo.lat = f.coordinates.2 ∧ geo.lng = f.coordinates.1 ∧
      (f.name = none → geo.address = q) ∧
      (∀ n, f.name = some n → n ≠ "" → geo.address = n) := by
  obtain ⟨feats⟩ := data
  simp only at hf
  subst hf
  refine ⟨rfl, _, rfl, rfl, rfl, ?_, ?_⟩
  · intro hn
    show (match f.name with
      | none => q
      | some n => if n = "" then q else n) = q
    rw [hn]
  · intro n hn hne
    show (match f.name with
      | none => q
      | some n => if n = "" then q else n) = n
    rw [hn]
    exact if_neg hne

/-- C8 witness: a concrete one-feature response is mapped with the
coordinate order swapped. -/
theorem spec_c8_witness :
    photonURL "x" = "https://photon.komoot.io/api/?q=" ++ "x" ++ "&limit=1" ∧
    ∃ geo, photon_autocomplete "x"
        (.ok ⟨[⟨some "Foo", ((7:ℚ), (8:ℚ))⟩]⟩) = .ok (some geo) ∧
      geo.lat = (⟨some "Foo", ((7:ℚ), (8:ℚ))⟩ : PhotonFeature).coordinates.2 ∧
      geo.lng = (⟨some "Foo", ((7:ℚ), (8:ℚ))⟩ : PhotonFeature).coordinates.1 ∧
      ((⟨some "Foo", ((7:ℚ), (8:ℚ))⟩ : PhotonFeature).name = none →
        geo.address = "x") ∧
      (∀ n, (⟨some "Foo", ((7:ℚ), (8:ℚ))⟩ : PhotonFeature).name = some n →
        n ≠ "" → geo.address = n) :=
  spec_c8_geocoder "x" ⟨some "Foo", (7, 8)⟩ [] ⟨[⟨some "Foo", (7, 8)⟩]⟩ rfl

/-- Full evaluation of the measurement of the 400 m² near-equator square
footprint: flat 400 · 10.7639 = 4305.56 rounds to 4306, the roof estimate
4305.56 · 1.15 = 4951.394 rounds to 4951, and squares 49.51394 rounds to
49.5. -/
theorem measure_roof_square_eval :
    measure_roof reqSquare (fun _ => .error ()) ovSquare projEquator =
      .ok (.result { flat_sqft := 4306, roof_sqft_est := 4951,
                     squares := 49.5, pitch_class := "medium" }) := by
  have hstep : measure_roof reqSquare (fun _ => .error ()) ovSquare projEquator =
      .ok (.result (mkMeasurement projEquator
        [((0:ℚ), (0:ℚ)), (squareSide, 0), (squareSide, squareSide), (0, squareSide)])) := rfl
  rw [hstep]
  have hflat : polygon_area_sqft projEquator
      [((0:ℚ), (0:ℚ)), (squareSide, 0), (squareSide, squareSide), (0, squareSide)] =
      430556/100 := by
    norm_num [polygon_area_sqft, area_of, shoelace, crossSum, projEquator, squareSide]
  have hmul : (multipliers.lookup "medium").getD 0 = 1.15 := rfl
  simp only [mkMeasurement, hflat, hmul]
  norm_num [roundHalfEven, pyRound1]

/-- C7 counterexample: for the 20 m-side (400 m²) square footprint near
the equator, the measurement's returned `roof_sqft_est` is 4951, not the
claimed 4952 (the claim's 4952 comes from multiplying the already-rounded
4306 by 1.15; the code multiplies the unrounded flat area). -/
theorem spec_c7_roof_value_cex :
    ¬ ∀ m : MeasurementResult,
        measure_roof reqSquare (fun _ => .error ()) ovSquare projEquator =
          .ok (.result m) →
        m.roof_sqft_est = 4952 := by
  intro h
  have h2 := h { flat_sqft := 4306, roof_sqft_est := 4951,
                 squares := 49.5, pitch_class := "medium" } measure_roof_square_eval
  norm_num at h2

/-- C7 (amended): for the 20 m-side (400 m²) square footprint near the
equator, `measure_roof` returns flat_sqft = 4306 (400 · 10.7639 rounded),
roof_sqft_est = 4951 (the unrounded flat area times 1.15, rounded), and
squares = 49.5, with pitch class "medium". -/
theorem spec_c7_square_measurement :
    measure_roof reqSquare (fun _ => .error ()) ovSquare projEquator =
      .ok (.result { flat_sqft := 4306, roof_sqft_est := 4951,
                     squares := 49.5, pitch_class := "medium" }) ∧
    (4306 : ℚ) = roundHalfEven (400 * 10.7639) ∧
    (4951 : ℚ) = roundHalfEven (400 * 10.7639 * 1.15) ∧
    (49.5 : ℚ) = pyRound1 (400 * 10.7639 * 1.15 / 100) := by
  refine ⟨measure_roof_square_eval, ?_, ?_, ?_⟩
  · norm_num [roundHalfEven]
  · norm_num [roundHalfEven]
  · norm_num [pyRound1, roundHalfEven]
